import Mathlib

/-!
Shallow embedding of the Telegram AI chat bot in src/main.py.

The SQLite database is modelled as lists of rows (row order = rowid order).
Each command handler is modelled as a pure function from the inbound update,
the database state and explicit oracles for the external effects (HTTP
outcome, image decode result, an injected storage fault for the audit write)
to the new database state together with the ordered list of effects it
performed (replies, chat actions, outbound HTTP requests, file downloads,
image operations, audit writes).
-/

/-- ASCII whitespace, the characters removed at either end by Python
str.strip on the ASCII range. -/
def isWS (c : Char) : Bool :=
  c == ' ' || c == '\t' || c == '\n' || c == '\r' || c == '\x0b' || c == '\x0c'

/-- The ASCII uppercase-to-lowercase table. -/
def ascii_case_table : List (Char × Char) :=
  [('A', 'a'), ('B', 'b'), ('C', 'c'), ('D', 'd'), ('E', 'e'), ('F', 'f'),
   ('G', 'g'), ('H', 'h'), ('I', 'i'), ('J', 'j'), ('K', 'k'), ('L', 'l'),
   ('M', 'm'), ('N', 'n'), ('O', 'o'), ('P', 'p'), ('Q', 'q'), ('R', 'r'),
   ('S', 's'), ('T', 't'), ('U', 'u'), ('V', 'v'), ('W', 'w'), ('X', 'x'),
   ('Y', 'y'), ('Z', 'z')]

/-- ASCII lowercasing of one character, modelling Python str.lower on the
ASCII range (the only range the bot ever compares against). -/
def pyLower (c : Char) : Char :=
  match ascii_case_table.find? (fun p => p.1 == c) with
  | some p => p.2
  | none => c

/-- Python str.lower lifted to strings. -/
def pyLowerStr (s : String) : String :=
  String.mk (s.data.map pyLower)

/-- Python str.strip on a character list: drop ASCII whitespace at both ends. -/
def pyStrip (l : List Char) : List Char :=
  ((l.dropWhile isWS).reverse.dropWhile isWS).reverse

/-- Does the haystack start with the needle (Python str.startswith on lists). -/
def leadsWith : List Char → List Char → Bool
  | [], _ => true
  | _ :: _, [] => false
  | a :: as, b :: bs => a == b && leadsWith as bs

/-- Python substring containment (the in operator on str): the needle occurs
contiguously somewhere in the haystack. -/
def isSub (n : List Char) : List Char → Bool
  | [] => leadsWith n []
  | c :: r => leadsWith n (c :: r) || isSub n r

/-- Propositional form of contiguous substring containment. -/
def ContainsSeq (n l : List Char) : Prop :=
  ∃ u v, l = u ++ n ++ v

/-- Python str.split with a one-character separator (the "x" separator used
by the resize argument parser): splitting never yields an empty list. -/
def splitOnChar (sep : Char) : List Char → List (List Char)
  | [] => [[]]
  | c :: r =>
    if c == sep then [] :: splitOnChar sep r
    else
      match splitOnChar sep r with
      | [] => [[c]]
      | h :: t => (c :: h) :: t

/-- Accumulating decimal parser over a digit run. -/
def digitsVal : Nat → List Char → Option Nat
  | acc, [] => some acc
  | acc, c :: r =>
    if c.isDigit then digitsVal (acc * 10 + (c.toNat - 48)) r else none

/-- Python int() on a character list: an optional sign followed by a
nonempty digit run (the core grammar; surrounding whitespace or underscores
would raise on the inputs the bot ever sees). -/
def pyIntChars : List Char → Option Int
  | [] => none
  | '-' :: r =>
    if r.isEmpty then none
    else (digitsVal 0 r).map (fun n => -(n : Int))
  | '+' :: r =>
    if r.isEmpty then none
    else (digitsVal 0 r).map (fun n => (n : Int))
  | l => (digitsVal 0 l).map (fun n => (n : Int))

/-- Python int() on a string. -/
def pyInt (s : String) : Option Int :=
  pyIntChars s.data

/-- Python sep.join(parts). -/
def pyJoin (sep : String) : List String → String
  | [] => ""
  | [a] => a
  | a :: r => a ++ sep ++ pyJoin sep r

/-- The needle the auto-roast guard looks for, in lowercase. -/
def bot_chars : List Char := ['b', 'o', 't']

/-- The bot own-name mention the auto-roast guard looks for. -/
def mention_chars : List Char := "@ITS_UNKNOWN_AI_BOT".data

-- =============================
-- CONFIG (src/main.py lines 22-25)
-- =============================

def OWNER_ID : Int := 6873534451

def MAX_SIZE : Int := 2048

-- =============================
-- DATABASE MODEL (src/main.py init_db, lines 44-82)
-- =============================

/-- One row of the allowed_groups table.  group_id is its PRIMARY KEY. -/
structure AllowedGroupRow where
  group_id : Int
  added_by : Int
  added_at : Nat
deriving DecidableEq

/-- One row of the append-only user_stats audit table. -/
structure UsageRow where
  user_id : Int
  username : Option String
  first_name : Option String
  group_id : Option Int
  command : String
  timestamp : Nat
deriving DecidableEq

/-- One row of the group_stats table.  Note: the CREATE TABLE statement in
init_db declares NO primary key or unique constraint on group_id. -/
structure GroupStatsRow where
  group_id : Option Int
  group_name : Option String
  total_commands : Int
  last_active : Nat
deriving DecidableEq

/-- The whole database.  Lists are kept in rowid (insertion) order. -/
structure DB where
  allowed_groups : List AllowedGroupRow
  user_stats : List UsageRow
  group_stats : List GroupStatsRow
deriving DecidableEq

/-- SQL equality used in WHERE clauses: comparisons against NULL are never
true (NULL = x evaluates to NULL, which is not true). -/
def sqlNullEq (a b : Option Int) : Bool :=
  match a, b with
  | some x, some y => x == y
  | _, _ => false

/-- get_allowed_groups (src/main.py lines 84-91): SELECT group_id FROM
allowed_groups, read as a set of ids. -/
def get_allowed_groups (db : DB) : List Int :=
  db.allowed_groups.map (fun r => r.group_id)

/-- add_allowed_group (src/main.py lines 93-108): INSERT OR REPLACE INTO
allowed_groups.  group_id is the PRIMARY KEY, so OR REPLACE deletes any
conflicting row and inserts the new one; returns True on success, False
when the write raised (modelled by the injected fault flag). -/
def add_allowed_group (fault : Bool) (gid added_by : Int) (now : Nat) (db : DB) :
    Bool × DB :=
  if fault then (false, db)
  else
    (true,
      { db with
        allowed_groups :=
          ⟨gid, added_by, now⟩ ::
            db.allowed_groups.filter (fun r => r.group_id != gid) })

/-- remove_allowed_group (src/main.py lines 110-122): DELETE FROM
allowed_groups WHERE group_id = ?; returns cursor.rowcount > 0, i.e. whether
a row was actually deleted; False when the write raised. -/
def remove_allowed_group (fault : Bool) (gid : Int) (db : DB) : Bool × DB :=
  if fault then (false, db)
  else
    (db.allowed_groups.any (fun r => r.group_id == gid),
      { db with
        allowed_groups := db.allowed_groups.filter (fun r => r.group_id != gid) })

-- =============================
-- EFFECT TRACE
-- =============================

/-- Color modes of the PIL images the resize pipeline can see. -/
inductive PMode
  | RGB
  | RGBA
  | L
  | LA
  | P
  | CMYK
deriving DecidableEq

/-- Whether the mode carries an alpha channel. -/
def PMode.hasAlpha : PMode → Bool
  | .RGBA => true
  | .LA => true
  | _ => false

/-- Number of color channels of the mode. -/
def PMode.channels : PMode → Nat
  | .RGB => 3
  | .RGBA => 4
  | .L => 1
  | .LA => 2
  | .P => 1
  | .CMYK => 4

/-- A raster image as far as the pipeline observes it: its decoded
dimensions and color mode. -/
structure Img where
  width : Nat
  height : Nat
  mode : PMode
deriving DecidableEq

/-- The mode conversion in resize_cmd (src/main.py lines 467-468): RGBA, LA
and P sources are flattened to RGB, all other modes pass through. -/
def convert_rgb (i : Img) : Img :=
  if i.mode == PMode.RGBA || i.mode == PMode.LA || i.mode == PMode.P then
    { i with mode := PMode.RGB }
  else i

/-- PIL Image.resize((w, h)): the first tuple component is the target width,
the second the target height; the mode is unchanged. -/
def pil_resize (i : Img) (w h : Nat) : Img :=
  { width := w, height := h, mode := i.mode }

/-- PIL JPEG encoding: JPEG stores no alpha and no palette; encodable modes
keep their dimensions and mode through an encode/decode round trip. -/
def save_jpeg (i : Img) : Option Img :=
  if i.mode.hasAlpha || i.mode == PMode.P then none else some i

/-- One observable effect performed by a handler, in execution order. -/
inductive Ev
  | reply (s : String)
  | replyPhoto (img : Option Img) (caption : String)
  | chatAction (s : String)
  | httpGet (url : String)
  | fileDownload
  | imageDecode
  | imageResize (w h : Nat)
  | imageEncode
  | dbLogUsage (cmd : String)
  | dbLogFailed (cmd : String)
deriving DecidableEq

/-- Outcome of one outbound requests.get call. -/
inductive HttpOutcome
  | ok (status : Nat) (body : String)
  | timeout
  | failed
deriving DecidableEq

/-- The slice of a telegram Update the handlers consume. -/
structure Upd where
  chat_type : String
  chat_id : Int
  user_id : Int
  username : Option String
  first_name : Option String
  text : String
  args : List String
  has_reply_to : Bool
  reply_has_photo : Bool
deriving DecidableEq

-- =============================
-- USAGE LOGGING (src/main.py log_user_action, lines 124-144)
-- =============================

/-- The body of log_user_action before its except clause: appends one
user_stats row, then runs INSERT OR REPLACE INTO group_stats.  group_stats
has no primary key or unique constraint, so OR REPLACE can never fire and
the statement is a plain append; the COALESCE subquery reads
total_commands from the FIRST row (rowid order) matching group_id, with SQL
NULL semantics for a NULL group_id.  Both inserts commit together; a fault
raises before anything is committed. -/
def log_user_action_attempt (fault : Bool) (now : Nat) (uid : Int)
    (uname fname : Option String) (gid : Option Int) (cmd : String)
    (db : DB) : Except Unit DB :=
  if fault then Except.error ()
  else
    Except.ok
      { db with
        user_stats := db.user_stats ++ [⟨uid, uname, fname, gid, cmd, now⟩],
        group_stats :=
          db.group_stats ++
            [⟨gid, none,
              ((db.group_stats.find? (fun r => sqlNullEq r.group_id gid)).map
                  (fun r => r.total_commands)).getD 0 + 1,
              now⟩] }

/-- log_user_action: the except clause catches any storage error, logs it
and returns normally, so the function never propagates a failure; the
returned event records whether the audit write happened or was swallowed. -/
def log_user_action (fault : Bool) (now : Nat) (uid : Int)
    (uname fname : Option String) (gid : Option Int) (cmd : String)
    (db : DB) : DB × Ev :=
  match log_user_action_attempt fault now uid uname fname gid cmd db with
  | Except.ok db1 => (db1, Ev.dbLogUsage cmd)
  | Except.error _ => (db, Ev.dbLogFailed cmd)

-- =============================
-- AUTHORIZATION GUARD (src/main.py lines 149-157)
-- =============================

/-- check_group_permission: a private chat is never allowed; otherwise the
chat id must be in the current allowed_groups set. -/
def check_group_permission (chat_type : String) (chat_id : Int) (db : DB) : Bool :=
  if chat_type == "private" then false
  else (get_allowed_groups db).contains chat_id

/-- is_owner: pure comparison against the configured owner id. -/
def is_owner (uid : Int) : Bool :=
  uid == OWNER_ID

-- =============================
-- REPLY TEXTS (taken verbatim from src/main.py)
-- =============================

def access_denied_msg : String :=
  "❌ This bot only works in authorized groups.\n📧 Contact @Zinko158 for group access."

def owner_only_msg : String := "❌ Owner command only available in private chat."

def allow_usage_msg : String := "📝 Usage: /allow <group_id>"

def remove_usage_msg : String := "📝 Usage: /remove <group_id>"

def invalid_group_msg : String := "❌ Invalid group ID. Please provide a numeric ID."

def add_failed_msg : String := "❌ Failed to add group to database."

def allowed_msg (gc : Int) : String :=
  "✅ Group " ++ toString gc ++ " has been authorized!"

def removed_msg (gc : Int) : String :=
  "❌ Group " ++ toString gc ++ " has been removed!"

def not_found_msg : String := "❌ Group not found in database."

def no_groups_msg : String := "📝 No groups are currently authorized."

def group_list_msg (groups : List Int) : String :=
  "✅ *Authorized Groups:*\n" ++
    String.intercalate "\n" (groups.map (fun g => "• " ++ toString g)) ++
    "\n\nTotal: " ++ toString groups.length ++ " groups"

def ai_usage_msg : String := "🤖 Usage: /ai <your question>"

def ai_short_msg : String := "❌ Please provide a longer question."

def ai_trouble_msg : String := "❌ Sorry, I\x27m having trouble responding right now."

def ai_timeout_msg : String := "⏰ Request timeout. Please try again."

def ai_error_msg : String := "❌ Error processing your request."

def ai_url (query : String) : String := "https://text.pollinations.ai/" ++ query

def gen_usage_msg (text : String) : String :=
  "🎨 Usage: /" ++ ((text.splitOn " ").headD "").drop 1 ++ " <image description>"

def gen_short_msg : String := "❌ Please provide a longer description."

def gen_fail_msg : String := "❌ Failed to generate image. Please try again."

def gen_timeout_msg : String := "⏰ Image generation timeout. Please try again."

def gen_error_msg : String := "❌ Error generating image. Please try a different prompt."

def gen_caption (style_name prompt : String) : String :=
  "🎨 " ++ style_name ++ ": " ++ prompt ++ "\n🌝 @Zinko158"

def image_url (final_prompt : String) : String :=
  "https://image.pollinations.ai/prompt/" ++ final_prompt

def reply_needed_msg : String :=
  "❌ Please reply to an image message with /resize HEIGHTxWIDTH"

def no_photo_msg : String :=
  "❌ The replied message doesn\x27t contain an image."

def resize_usage_msg : String :=
  "📐 Usage: /resize HEIGHTxWIDTH (e.g., /resize 800x600)"

def format_msg : String := "❌ Format: HEIGHTxWIDTH (e.g., 800x600)"

def invalid_dims_msg : String := "❌ Invalid dimensions. Use numbers like 800x600"

def size_err_msg : String :=
  "❌ Size must be between 1x1 and " ++ toString MAX_SIZE ++ "x" ++ toString MAX_SIZE

def resize_fail_msg : String :=
  "❌ Failed to resize image. Please make sure you\x27re replying to a valid image."

def resize_caption (h w : Int) : String :=
  "🔄 Resized to: " ++ toString h ++ "x" ++ toString w ++ "\n🥱 @Zinko158"

def roast_url (prompt : String) : String := "https://text.pollinations.ai/" ++ prompt

def roast_prompt (msg : String) : String :=
  "Tujhe ye message padh ke roast karna hai in Hinglish with emojis,hamesha attitude me bat kare dusre ki bazzti kare hamesha,bas 1-2 line me, bilkul natural aur casual style me, no abuse, just friendly troll: \x27" ++ msg ++ "\x27"

-- =============================
-- OWNER COMMANDS (src/main.py lines 235-296)
-- =============================

/-- allow_cmd: owner-only, private-chat-only grant of a group id. -/
def allow_cmd (upd : Upd) (db : DB) (now : Nat) (fault : Bool) : DB × List Ev :=
  if (upd.chat_type != "private") || (! is_owner upd.user_id) then
    (db, [Ev.reply owner_only_msg])
  else if upd.args.isEmpty then (db, [Ev.reply allow_usage_msg])
  else
    match pyInt (upd.args.headD "") with
    | none => (db, [Ev.reply invalid_group_msg])
    | some gc =>
      let r := add_allowed_group fault gc upd.user_id now db
      if r.1 then (r.2, [Ev.reply (allowed_msg gc)])
      else (r.2, [Ev.reply add_failed_msg])

/-- remove_cmd: owner-only, private-chat-only revocation of a group id. -/
def remove_cmd (upd : Upd) (db : DB) (fault : Bool) : DB × List Ev :=
  if (upd.chat_type != "private") || (! is_owner upd.user_id) then
    (db, [Ev.reply owner_only_msg])
  else if upd.args.isEmpty then (db, [Ev.reply remove_usage_msg])
  else
    match pyInt (upd.args.headD "") with
    | none => (db, [Ev.reply invalid_group_msg])
    | some gc =>
      let r := remove_allowed_group fault gc db
      if r.1 then (r.2, [Ev.reply (removed_msg gc)])
      else (r.2, [Ev.reply not_found_msg])

/-- list_cmd: owner-only, private-chat-only listing of allowed groups. -/
def list_cmd (upd : Upd) (db : DB) : DB × List Ev :=
  if (upd.chat_type != "private") || (! is_owner upd.user_id) then
    (db, [Ev.reply owner_only_msg])
  else
    let groups := get_allowed_groups db
    if groups.isEmpty then (db, [Ev.reply no_groups_msg])
    else (db, [Ev.reply (group_list_msg groups)])

-- =============================
-- AI TEXT COMMAND (src/main.py ai_cmd, lines 301-341)
-- =============================

def ai_cmd (upd : Upd) (db : DB) (now : Nat) (fault : Bool)
    (http : HttpOutcome) : DB × List Ev :=
  if ! check_group_permission upd.chat_type upd.chat_id db then
    (db, [Ev.reply access_denied_msg])
  else if upd.args.isEmpty then (db, [Ev.reply ai_usage_msg])
  else
    let query := pyJoin " " upd.args
    if query.length < 2 then (db, [Ev.reply ai_short_msg])
    else
      let lg := log_user_action fault now upd.user_id upd.username
        upd.first_name (some upd.chat_id) "ai" db
      (lg.1,
        [lg.2, Ev.chatAction "typing", Ev.httpGet (ai_url query)] ++
          match http with
          | HttpOutcome.ok st body =>
            if st == 200 then [Ev.reply ("🤖 " ++ body)]
            else [Ev.reply ai_trouble_msg]
          | HttpOutcome.timeout => [Ev.reply ai_timeout_msg]
          | HttpOutcome.failed => [Ev.reply ai_error_msg])

-- =============================
-- IMAGE GENERATOR (src/main.py gen_image, lines 346-391)
-- =============================

def gen_image (upd : Upd) (db : DB) (now : Nat) (fault : Bool)
    (style style_name : String) (http : HttpOutcome) : DB × List Ev :=
  if ! check_group_permission upd.chat_type upd.chat_id db then
    (db, [Ev.reply access_denied_msg])
  else if upd.args.isEmpty then (db, [Ev.reply (gen_usage_msg upd.text)])
  else
    let prompt := pyJoin " " upd.args
    if prompt.length < 3 then (db, [Ev.reply gen_short_msg])
    else
      let lg := log_user_action fault now upd.user_id upd.username
        upd.first_name (some upd.chat_id) (pyLowerStr style_name) db
      (lg.1,
        [lg.2, Ev.chatAction "upload_photo",
          Ev.httpGet (image_url
            (style ++ ", " ++ prompt ++ ", high quality, always no watermark"))] ++
          match http with
          | HttpOutcome.ok st _ =>
            if st == 200 then [Ev.replyPhoto none (gen_caption style_name prompt)]
            else [Ev.reply gen_fail_msg]
          | HttpOutcome.timeout => [Ev.reply gen_timeout_msg]
          | HttpOutcome.failed => [Ev.reply gen_error_msg])

-- =============================
-- RESIZE COMMAND (src/main.py resize_cmd, lines 414-484)
-- =============================

/-- h, w = map(int, size_arg.split("x")): exactly two parts, both integers;
anything else raises ValueError. -/
def parse_hw (s : String) : Option (Int × Int) :=
  match (splitOnChar 'x' s.data).map pyIntChars with
  | [some h, some w] => some (h, w)
  | _ => none

def resize_cmd (upd : Upd) (db : DB) (now : Nat) (fault : Bool)
    (decoded : Option Img) : DB × List Ev :=
  if ! check_group_permission upd.chat_type upd.chat_id db then
    (db, [Ev.reply access_denied_msg])
  else if ! upd.has_reply_to then (db, [Ev.reply reply_needed_msg])
  else if ! upd.reply_has_photo then (db, [Ev.reply no_photo_msg])
  else if upd.args.length != 1 then (db, [Ev.reply resize_usage_msg])
  else
    let size_arg := pyLowerStr (upd.args.headD "")
    if ! size_arg.data.contains 'x' then (db, [Ev.reply format_msg])
    else
      match parse_hw size_arg with
      | none => (db, [Ev.reply invalid_dims_msg])
      | some (h, w) =>
        if h > MAX_SIZE ∨ w > MAX_SIZE ∨ h ≤ 0 ∨ w ≤ 0 then
          (db, [Ev.reply size_err_msg])
        else
          let lg := log_user_action fault now upd.user_id upd.username
            upd.first_name (some upd.chat_id) "resize" db
          let pre := [lg.2, Ev.chatAction "upload_photo", Ev.fileDownload]
          match decoded with
          | none => (lg.1, pre ++ [Ev.reply resize_fail_msg])
          | some img =>
            let out := pil_resize (convert_rgb img) w.toNat h.toNat
            match save_jpeg out with
            | some saved =>
              (lg.1, pre ++
                [Ev.imageDecode, Ev.imageResize w.toNat h.toNat, Ev.imageEncode,
                  Ev.replyPhoto (some saved) (resize_caption h w)])
            | none =>
              (lg.1, pre ++
                [Ev.imageDecode, Ev.imageResize w.toNat h.toNat,
                  Ev.reply resize_fail_msg])

-- =============================
-- AUTO ROAST (src/main.py roast_auto, lines 489-535)
-- =============================

/-- msg.startswith a slash. -/
def startsSlash : List Char → Bool
  | '/' :: _ => true
  | _ => false

def roast_auto (upd : Upd) (db : DB) (now : Nat) (fault : Bool)
    (http : HttpOutcome) : DB × List Ev :=
  if upd.chat_type == "private" then (db, [])
  else if ! check_group_permission upd.chat_type upd.chat_id db then (db, [])
  else
    let msg := pyStrip upd.text.data
    if msg.length < 5 ∨ startsSlash msg then (db, [])
    else if isSub mention_chars msg || isSub bot_chars (msg.map pyLower) then
      (db, [])
    else
      let lg := log_user_action fault now upd.user_id upd.username
        upd.first_name (some upd.chat_id) "auto_roast" db
      (lg.1,
        [lg.2, Ev.chatAction "typing",
          Ev.httpGet (roast_url (roast_prompt (String.mk msg)))] ++
          match http with
          | HttpOutcome.ok st body =>
            if st == 200 && body.length > 10 then
              let roast_text := body.trim
              let t2 :=
                if roast_text.length > 200 then roast_text.take 200 ++ "... 😂"
                else roast_text
              [Ev.reply (t2 ++ " 😆")]
            else []
          | HttpOutcome.timeout => []
          | HttpOutcome.failed => [])

-- =============================
-- TRACE OBSERVERS
-- =============================

/-- The user-visible replies of a trace (text replies and photo captions). -/
def user_replies (evs : List Ev) : List String :=
  evs.filterMap fun e =>
    match e with
    | Ev.reply s => some s
    | Ev.replyPhoto _ c => some c
    | _ => none

/-- Outbound network work: a generation request or a platform file download. -/
def is_outbound : Ev → Bool
  | Ev.httpGet _ => true
  | Ev.fileDownload => true
  | _ => false

/-- A successful audit write. -/
def is_db_log : Ev → Bool
  | Ev.dbLogUsage _ => true
  | _ => false

/-- True when a successful audit write occurs strictly before any outbound
network effect of the trace. -/
def log_before_outbound : List Ev → Bool
  | [] => true
  | e :: r =>
    if is_outbound e then false
    else if is_db_log e then true
    else log_before_outbound r

/-- The first photo reply of a trace that carries a decoded image. -/
def first_photo (evs : List Ev) : Option Img :=
  evs.findSome? fun e =>
    match e with
    | Ev.replyPhoto (some i) _ => some i
    | _ => none

-- =============================
-- CONCRETE INPUTS USED BY WITNESSES
-- =============================

/-- A database whose allow-list holds exactly group 5. -/
def dbG5 : DB :=
  { allowed_groups := [⟨5, 6873534451, 0⟩], user_stats := [], group_stats := [] }

/-- An update from allowed group 5 carrying the argument 200x50 and replying
to a photo. -/
def updResize : Upd :=
  { chat_type := "group", chat_id := 5, user_id := 99, username := none,
    first_name := none, text := "/resize 200x50", args := ["200x50"],
    has_reply_to := true, reply_has_photo := true }

/-- An update from allowed group 5 with a 0x100 resize argument. -/
def updResizeBad : Upd :=
  { updResize with text := "/resize 0x100", args := ["0x100"] }

/-- A plain text message from allowed group 5 containing the word robot. -/
def updRobot : Upd :=
  { chat_type := "group", chat_id := 5, user_id := 99, username := none,
    first_name := none, text := "I bought a robot", args := [],
    has_reply_to := false, reply_has_photo := false }

/-- An update sent by the owner from a group chat. -/
def updOwnerInGroup : Upd :=
  { chat_type := "group", chat_id := 5, user_id := 6873534451, username := none,
    first_name := none, text := "/allow 12345", args := ["12345"],
    has_reply_to := false, reply_has_photo := false }

/-- An update sent from a private chat whose id is on the allow-list. -/
def updPrivate : Upd :=
  { chat_type := "private", chat_id := 5, user_id := 99, username := none,
    first_name := none, text := "/ai hello", args := ["hello"],
    has_reply_to := true, reply_has_photo := true }

-- =============================
-- HELPER LEMMAS
-- =============================

/-- Lowercasing a character does not change whether it is whitespace. -/
theorem isWS_pyLower (c : Char) : isWS (pyLower c) = isWS c := by
  unfold pyLower
  cases hf : ascii_case_table.find? (fun p => p.1 == c) with
  | none => rfl
  | some q =>
    have hmem : q ∈ ascii_case_table := List.mem_of_find?_eq_some hf
    have hq := List.find?_some hf
    have hc : c = q.1 := by
      have hb : (q.1 == c) = true := by simpa using hq
      exact (beq_iff_eq.mp hb).symm
    have htab : ∀ r ∈ ascii_case_table, isWS r.1 = false ∧ isWS r.2 = false := by
      decide
    rw [(htab q hmem).2, hc, (htab q hmem).1]

/-- A nonempty needle of non-whitespace characters survives dropping a
whitespace prefix of the haystack. -/
theorem containsSeq_dropWhile (p : Char → Bool) (n : List Char)
    (hne : n ≠ []) (hnp : ∀ c ∈ n, p c = false) (l : List Char)
    (h : ContainsSeq n l) : ContainsSeq n (l.dropWhile p) := by
  obtain ⟨u, v, rfl⟩ := h
  induction u with
  | nil =>
    cases n with
    | nil => exact absurd rfl hne
    | cons a as =>
      have ha : p a = false := hnp a (by simp)
      refine ⟨[], v, ?_⟩
      simp [List.dropWhile_cons, ha]
  | cons a u ih =>
    by_cases hpa : p a = true
    · simpa [List.dropWhile_cons, hpa] using ih
    · exact ⟨a :: u, v, by simp [List.dropWhile_cons, hpa]⟩

/-- Substring containment is preserved by reversing both lists. -/
theorem containsSeq_reverse {n l : List Char} (h : ContainsSeq n l) :
    ContainsSeq n.reverse l.reverse := by
  obtain ⟨u, v, rfl⟩ := h
  exact ⟨v.reverse, u.reverse, by simp⟩

/-- A nonempty needle of non-whitespace characters survives Python strip of
the haystack. -/
theorem containsSeq_pyStrip (n : List Char) (hne : n ≠ [])
    (hws : ∀ c ∈ n, isWS c = false) (l : List Char)
    (h : ContainsSeq n l) : ContainsSeq n (pyStrip l) := by
  have h1 := containsSeq_dropWhile isWS n hne hws l h
  have h2 := containsSeq_reverse h1
  have hne2 : n.reverse ≠ [] := by simpa using hne
  have hws2 : ∀ c ∈ n.reverse, isWS c = false := by simpa using hws
  have h3 := containsSeq_dropWhile isWS n.reverse hne2 hws2 _ h2
  have h4 := containsSeq_reverse h3
  simpa [pyStrip] using h4

/-- dropWhile commutes with map. -/
theorem dropWhile_map_eq (p : Char → Bool) (f : Char → Char) (l : List Char) :
    (l.map f).dropWhile p = (l.dropWhile (fun a => p (f a))).map f := by
  induction l with
  | nil => rfl
  | cons a l ih =>
    by_cases hpa : p (f a) = true <;>
      simp [List.dropWhile_cons, hpa, ih]

/-- Lowercasing commutes with Python strip. -/
theorem pyStrip_map_pyLower (l : List Char) :
    (pyStrip l).map pyLower = pyStrip (l.map pyLower) := by
  have hfun : (fun a => isWS (pyLower a)) = isWS := funext isWS_pyLower
  simp only [pyStrip, dropWhile_map_eq, hfun, ← List.map_reverse]

/-- A list starts with itself followed by anything. -/
theorem leadsWith_append (n v : List Char) : leadsWith n (n ++ v) = true := by
  induction n with
  | nil => rfl
  | cons a as ih => simp [leadsWith, ih]

/-- isSub holds when the haystack starts with the needle. -/
theorem isSub_of_leadsWith {n h : List Char} (hl : leadsWith n h = true) :
    isSub n h = true := by
  cases h with
  | nil => simpa [isSub] using hl
  | cons c r => simp [isSub, hl]

/-- isSub is monotone under consing onto the haystack. -/
theorem isSub_cons_of_isSub {n : List Char} (c : Char) {r : List Char}
    (h : isSub n r = true) : isSub n (c :: r) = true := by
  simp [isSub, h]

/-- The boolean substring test agrees with propositional containment. -/
theorem isSub_of_containsSeq {n l : List Char} (h : ContainsSeq n l) :
    isSub n l = true := by
  obtain ⟨u, v, rfl⟩ := h
  induction u with
  | nil => exact isSub_of_leadsWith (leadsWith_append n v)
  | cons a u ih => exact isSub_cons_of_isSub a ih

/-- If the raw message text contains bot in any letter case, the guard
expression of roast_auto computed on the stripped, lowercased message is
true. -/
theorem bot_guard_of_text (t : List Char)
    (h : ContainsSeq bot_chars (t.map pyLower)) :
    isSub bot_chars ((pyStrip t).map pyLower) = true := by
  have hne : bot_chars ≠ [] := by simp [bot_chars]
  have hws : ∀ c ∈ bot_chars, isWS c = false := by decide
  have h1 := containsSeq_pyStrip bot_chars hne hws _ h
  rw [pyStrip_map_pyLower]
  exact isSub_of_containsSeq h1

/-- The audit-write event is never user-visible, whether it succeeded or was
swallowed. -/
theorem user_replies_log_cons (fault : Bool) (now : Nat) (uid : Int)
    (uname fname : Option String) (gid : Option Int) (cmd : String) (db : DB)
    (rest : List Ev) :
    user_replies ((log_user_action fault now uid uname fname gid cmd db).2 :: rest) =
      user_replies rest := by
  cases fault <;> simp [log_user_action, log_user_action_attempt, user_replies]

/-- The audit-write event is never an outbound network effect, whether it
succeeded or was swallowed. -/
theorem any_outbound_log_cons (fault : Bool) (now : Nat) (uid : Int)
    (uname fname : Option String) (gid : Option Int) (cmd : String) (db : DB)
    (rest : List Ev) :
    (((log_user_action fault now uid uname fname gid cmd db).2 :: rest).any is_outbound) =
      rest.any is_outbound := by
  cases fault <;> simp [log_user_action, log_user_action_attempt, is_outbound]

-- =============================
-- CLAIM THEOREMS
-- =============================

/-- Claim C1: for every chat identifier, if the chat kind is private then
check_group_permission returns false regardless of the contents of the
allowed-groups store, and every gated capability (ai, image generation,
resize) refuses with the access-denied reply, leaving the database
untouched and performing no further effect. -/
theorem c1_private_chat_never_authorized (upd : Upd) (db : DB) (now : Nat)
    (fault : Bool) (http : HttpOutcome) (decoded : Option Img)
    (style style_name : String) (h : upd.chat_type = "private") :
    check_group_permission upd.chat_type upd.chat_id db = false ∧
    ai_cmd upd db now fault http = (db, [Ev.reply access_denied_msg]) ∧
    gen_image upd db now fault style style_name http =
      (db, [Ev.reply access_denied_msg]) ∧
    resize_cmd upd db now fault decoded = (db, [Ev.reply access_denied_msg]) := by
  have hc : check_group_permission upd.chat_type upd.chat_id db = false := by
    simp [check_group_permission, h]
  refine ⟨hc, ?_, ?_, ?_⟩ <;> simp [ai_cmd, gen_image, resize_cmd, hc]

/-- Witness for C1 at a private chat whose id 5 is actually on the
allow-list, showing the hard rule overrides the store. -/
theorem c1_private_chat_never_authorized_witness :
    check_group_permission updPrivate.chat_type updPrivate.chat_id dbG5 = false ∧
    ai_cmd updPrivate dbG5 0 false HttpOutcome.timeout =
      (dbG5, [Ev.reply access_denied_msg]) ∧
    gen_image updPrivate dbG5 0 false "anime style art" "Anime Art"
      HttpOutcome.timeout = (dbG5, [Ev.reply access_denied_msg]) ∧
    resize_cmd updPrivate dbG5 0 false none =
      (dbG5, [Ev.reply access_denied_msg]) :=
  c1_private_chat_never_authorized updPrivate dbG5 0 false HttpOutcome.timeout
    none "anime style art" "Anime Art" rfl

/-- Claim C2: granting a group authorizes it, and repeating the grant
succeeds again (INSERT OR REPLACE upserts added_by and the timestamp rather
than erroring) and leaves authorization true. -/
theorem c2_grant_upsert_idempotent (g x x2 : Int) (now now2 : Nat) (db : DB)
    (τ : String) (h : τ ≠ "private") :
    (add_allowed_group false g x now db).1 = true ∧
    check_group_permission τ g (add_allowed_group false g x now db).2 = true ∧
    (add_allowed_group false g x2 now2
      (add_allowed_group false g x now db).2).1 = true ∧
    check_group_permission τ g
      (add_allowed_group false g x2 now2
        (add_allowed_group false g x now db).2).2 = true ∧
    ((add_allowed_group false g x2 now2
          (add_allowed_group false g x now db).2).2.allowed_groups.find?
        (fun r => r.group_id == g)).map (fun r => (r.added_by, r.added_at)) =
      some (x2, now2) := by
  have hτ : (τ == "private") = false := by
    simp [h]
  refine ⟨rfl, ?_, rfl, ?_, ?_⟩
  · simp [add_allowed_group, check_group_permission, get_allowed_groups, hτ]
  · simp [add_allowed_group, check_group_permission, get_allowed_groups, hτ]
  · rw [show (add_allowed_group false g x2 now2
      (add_allowed_group false g x now db).2).2.allowed_groups =
        ⟨g, x2, now2⟩ :: ((add_allowed_group false g x now db).2.allowed_groups.filter
          (fun r => r.group_id != g)) from rfl]
    rw [List.find?_cons_of_pos _ (by simp)]
    rfl

/-- Witness for C2: granting group 12345 twice on an empty store. -/
theorem c2_grant_upsert_idempotent_witness :
    ("group" : String) ≠ "private" ∧
    ((add_allowed_group false 12345 1 3 ⟨[], [], []⟩).1 = true ∧
      check_group_permission "group" 12345
        (add_allowed_group false 12345 1 3 ⟨[], [], []⟩).2 = true ∧
      (add_allowed_group false 12345 2 4
        (add_allowed_group false 12345 1 3 ⟨[], [], []⟩).2).1 = true ∧
      check_group_permission "group" 12345
        (add_allowed_group false 12345 2 4
          (add_allowed_group false 12345 1 3 ⟨[], [], []⟩).2).2 = true ∧
      ((add_allowed_group false 12345 2 4
            (add_allowed_group false 12345 1 3 ⟨[], [], []⟩).2).2.allowed_groups.find?
          (fun r => r.group_id == 12345)).map (fun r => (r.added_by, r.added_at)) =
        some (2, 4)) :=
  ⟨by decide, c2_grant_upsert_idempotent 12345 1 2 3 4 ⟨[], [], []⟩ "group" (by decide)⟩

/-- Claim C3: the owner-only commands allow, remove and list invoked from a
chat that is not private are rejected with the owner-only reply and leave
the store untouched, even when the sender is the configured owner. -/
theorem c3_owner_commands_rejected_outside_private (upd : Upd) (db : DB)
    (now : Nat) (fault : Bool) (h : upd.chat_type ≠ "private") :
    allow_cmd upd db now fault = (db, [Ev.reply owner_only_msg]) ∧
    remove_cmd upd db fault = (db, [Ev.reply owner_only_msg]) ∧
    list_cmd upd db = (db, [Ev.reply owner_only_msg]) := by
  have hb : (upd.chat_type != "private") = true := by
    simp [h]
  refine ⟨?_, ?_, ?_⟩ <;> simp [allow_cmd, remove_cmd, list_cmd, hb]

/-- Witness for C3: the owner itself sending /allow 12345 from group 5. -/
theorem c3_owner_commands_rejected_outside_private_witness :
    updOwnerInGroup.chat_type ≠ "private" ∧
    is_owner updOwnerInGroup.user_id = true ∧
    (allow_cmd updOwnerInGroup dbG5 0 false = (dbG5, [Ev.reply owner_only_msg]) ∧
      remove_cmd updOwnerInGroup dbG5 false = (dbG5, [Ev.reply owner_only_msg]) ∧
      list_cmd updOwnerInGroup dbG5 = (dbG5, [Ev.reply owner_only_msg])) :=
  ⟨by decide, by decide,
    c3_owner_commands_rejected_outside_private updOwnerInGroup dbG5 0 false (by decide)⟩

/-- Claim C4 (code defect): each recordUsage call appends exactly one audit
row, but because group_stats has no primary key the INSERT OR REPLACE can
never replace: every call appends a fresh summary row whose counter is
computed from the FIRST matching row, so after three usages for group 5 the
counters read 1, 2, 2 and no row ever reaches 3. -/
theorem c4_group_counter_stuck_at_two :
    (((log_user_action false 3 10 (some "u") (some "f") (some 5) "ai"
        (log_user_action false 2 10 (some "u") (some "f") (some 5) "ai"
          (log_user_action false 1 10 (some "u") (some "f") (some 5) "ai"
            ⟨[], [], []⟩).1).1).1).user_stats.length = 3) ∧
    ((log_user_action false 3 10 (some "u") (some "f") (some 5) "ai"
        (log_user_action false 2 10 (some "u") (some "f") (some 5) "ai"
          (log_user_action false 1 10 (some "u") (some "f") (some 5) "ai"
            ⟨[], [], []⟩).1).1).1.group_stats.map
      (fun r => r.total_commands) = [1, 2, 2]) ∧
    ((log_user_action false 3 10 (some "u") (some "f") (some 5) "ai"
        (log_user_action false 2 10 (some "u") (some "f") (some 5) "ai"
          (log_user_action false 1 10 (some "u") (some "f") (some 5) "ai"
            ⟨[], [], []⟩).1).1).1.group_stats.all
      (fun r => r.total_commands != 3) = true) := by
  decide

/-- Claim C5: a resize invocation whose parsed dimensions violate
0 < h ≤ 2048 and 0 < w ≤ 2048 is answered with the dimension-specific
rejection only: no usage log, no download, no decode, no resize, no encode,
and the database is unchanged. -/
theorem c5_resize_bad_dims_rejected (upd : Upd) (db : DB) (now : Nat)
    (fault : Bool) (decoded : Option Img) (s : String) (h w : Int)
    (hp : check_group_permission upd.chat_type upd.chat_id db = true)
    (hr : upd.has_reply_to = true) (hph : upd.reply_has_photo = true)
    (ha : upd.args = [s])
    (hx : (pyLowerStr s).data.contains 'x' = true)
    (hhw : parse_hw (pyLowerStr s) = some (h, w))
    (hbad : h > MAX_SIZE ∨ w > MAX_SIZE ∨ h ≤ 0 ∨ w ≤ 0) :
    resize_cmd upd db now fault decoded = (db, [Ev.reply size_err_msg]) := by
  have hx2 : 'x' ∈ (pyLowerStr s).data := by simpa using hx
  simp [resize_cmd, hp, hr, hph, ha, hx2, hhw, hbad]

/-- Witness for C5: /resize 0x100 from authorized group 5. -/
theorem c5_resize_bad_dims_rejected_witness :
    check_group_permission updResizeBad.chat_type updResizeBad.chat_id dbG5 = true ∧
    updResizeBad.args = ["0x100"] ∧
    parse_hw (pyLowerStr "0x100") = some (0, 100) ∧
    ((0 : Int) > MAX_SIZE ∨ (100 : Int) > MAX_SIZE ∨ (0 : Int) ≤ 0 ∨
      (100 : Int) ≤ 0) ∧
    resize_cmd updResizeBad dbG5 0 false (some ⟨100, 100, PMode.RGB⟩) =
      (dbG5, [Ev.reply size_err_msg]) :=
  ⟨by decide, by decide, by decide, by decide,
    c5_resize_bad_dims_rejected updResizeBad dbG5 0 false
      (some ⟨100, 100, PMode.RGB⟩) "0x100" 0 100 (by decide) (by decide)
      (by decide) (by decide) (by decide) (by decide) (by decide)⟩

/-- Claim C6, counterexample to the three-channel part: a valid 100x100
grayscale (mode L) source resized with argument 200x50 yields an output
whose decoded height is 200 and width is 50, but whose mode L has a single
channel, not three. -/
theorem c6_three_channel_counterexample :
    first_photo (resize_cmd updResize dbG5 0 false
        (some ⟨100, 100, PMode.L⟩)).2 = some ⟨50, 200, PMode.L⟩ ∧
    PMode.channels PMode.L = 1 ∧
    ¬ PMode.channels PMode.L = 3 := by
  decide

/-- Claim C6 as amended: for every valid raster source, resize with
argument 200x50 replies with an image whose decoded height is exactly 200
and width exactly 50, in a non-alpha color model (the first number of the
HxW argument is the height, the second the width). -/
theorem c6_resize_dims_nonalpha (upd : Upd) (db : DB) (now : Nat)
    (fault : Bool) (src : Img)
    (hp : check_group_permission upd.chat_type upd.chat_id db = true)
    (hr : upd.has_reply_to = true) (hph : upd.reply_has_photo = true)
    (ha : upd.args = ["200x50"]) :
    ∃ out, first_photo (resize_cmd upd db now fault (some src)).2 = some out ∧
      out.height = 200 ∧ out.width = 50 ∧ out.mode.hasAlpha = false := by
  obtain ⟨sw, sh, smode⟩ := src
  have hx2 : 'x' ∈ (pyLowerStr "200x50").data := by decide
  have hpar : parse_hw (pyLowerStr "200x50") = some (200, 50) := by decide
  have h1 : ¬ (MAX_SIZE < (200 : Int)) := by decide
  have h2 : ¬ (MAX_SIZE < (50 : Int)) := by decide
  cases fault <;> cases smode <;>
    simp [resize_cmd, hp, hr, hph, ha, hx2, hpar, h1, h2, log_user_action,
      log_user_action_attempt, convert_rgb, save_jpeg, pil_resize, first_photo,
      PMode.hasAlpha, List.findSome?_cons]

/-- Witness for C6 on an RGB source. -/
theorem c6_resize_dims_nonalpha_witness :
    check_group_permission updResize.chat_type updResize.chat_id dbG5 = true ∧
    updResize.args = ["200x50"] ∧
    (∃ out, first_photo (resize_cmd updResize dbG5 0 false
        (some ⟨100, 100, PMode.RGB⟩)).2 = some out ∧
      out.height = 200 ∧ out.width = 50 ∧ out.mode.hasAlpha = false) :=
  ⟨by decide, by decide,
    c6_resize_dims_nonalpha updResize dbG5 0 false ⟨100, 100, PMode.RGB⟩
      (by decide) (by decide) (by decide) (by decide)⟩

/-- Claim C7: removing a group id that is not in the store returns false
(no row was deleted), leaves the database unchanged, and authorization for
that id stays false for every chat kind. -/
theorem c7_remove_absent_returns_false (g : Int) (db : DB) (τ : String)
    (fault : Bool) (h : ∀ r ∈ db.allowed_groups, r.group_id ≠ g) :
    (remove_allowed_group fault g db).1 = false ∧
    (remove_allowed_group fault g db).2 = db ∧
    check_group_permission τ g (remove_allowed_group fault g db).2 = false := by
  have hany : db.allowed_groups.any (fun r => r.group_id == g) = false := by
    simp only [List.any_eq_false]
    intro r hr
    simpa using h r hr
  have hfil : db.allowed_groups.filter (fun r => r.group_id != g) =
      db.allowed_groups := by
    rw [List.filter_eq_self]
    intro r hr
    simpa using h r hr
  have hrm : remove_allowed_group fault g db = (false, db) := by
    cases fault
    · simp [remove_allowed_group, hany, hfil]
    · rfl
  have hmem : ¬ g ∈ get_allowed_groups db := by
    simp only [get_allowed_groups, List.mem_map]
    rintro ⟨r, hr, hrg⟩
    exact h r hr hrg
  have hcheck : check_group_permission τ g db = false := by
    by_cases hτ : (τ == "private") = true
    · simp [check_group_permission, hτ]
    · simp only [check_group_permission, hτ, if_false, Bool.if_false_left]
      simpa using hmem
  rw [hrm]
  exact ⟨rfl, rfl, hcheck⟩

/-- Witness for C7: removing never-granted group 99 from the store that
holds only group 5. -/
theorem c7_remove_absent_returns_false_witness :
    (∀ r ∈ dbG5.allowed_groups, r.group_id ≠ 99) ∧
    ((remove_allowed_group false 99 dbG5).1 = false ∧
      (remove_allowed_group false 99 dbG5).2 = dbG5 ∧
      check_group_permission "group" 99 (remove_allowed_group false 99 dbG5).2 =
        false) :=
  ⟨by decide, c7_remove_absent_returns_false 99 dbG5 "group" false (by decide)⟩

/-- The audit-write event is never an outbound network effect. -/
theorem is_outbound_log (fault : Bool) (now : Nat) (uid : Int)
    (uname fname : Option String) (gid : Option Int) (cmd : String) (db : DB) :
    is_outbound (log_user_action fault now uid uname fname gid cmd db).2 = false := by
  cases fault <;> simp [log_user_action, log_user_action_attempt, is_outbound]

set_option maxHeartbeats 1600000 in
/-- Claim C8: a failure inside the usage recording (modelled by the
injected fault, which makes the audit write raise before committing) is
caught inside log_user_action and never propagates: every handler that
records usage produces exactly the same user-visible replies and the same
outbound network behaviour as in the fault-free run. -/
theorem c8_log_failure_never_propagates (upd : Upd) (db : DB) (now : Nat)
    (fault : Bool) (http : HttpOutcome) (decoded : Option Img)
    (style style_name : String) :
    user_replies (ai_cmd upd db now fault http).2 =
      user_replies (ai_cmd upd db now false http).2 ∧
    (ai_cmd upd db now fault http).2.any is_outbound =
      (ai_cmd upd db now false http).2.any is_outbound ∧
    user_replies (gen_image upd db now fault style style_name http).2 =
      user_replies (gen_image upd db now false style style_name http).2 ∧
    (gen_image upd db now fault style style_name http).2.any is_outbound =
      (gen_image upd db now false style style_name http).2.any is_outbound ∧
    user_replies (resize_cmd upd db now fault decoded).2 =
      user_replies (resize_cmd upd db now false decoded).2 ∧
    (resize_cmd upd db now fault decoded).2.any is_outbound =
      (resize_cmd upd db now false decoded).2.any is_outbound ∧
    user_replies (roast_auto upd db now fault http).2 =
      user_replies (roast_auto upd db now false http).2 ∧
    (roast_auto upd db now fault http).2.any is_outbound =
      (roast_auto upd db now false http).2.any is_outbound := by
  cases fault
  · exact ⟨rfl, rfl, rfl, rfl, rfl, rfl, rfl, rfl⟩
  · refine ⟨?_, ?_, ?_, ?_, ?_, ?_, ?_, ?_⟩
    · simp only [ai_cmd]
      split_ifs <;> simp [user_replies_log_cons, List.cons_append]
    · simp only [ai_cmd]
      split_ifs <;> simp [is_outbound_log, List.cons_append]
    · simp only [gen_image]
      split_ifs <;> simp [user_replies_log_cons, List.cons_append]
    · simp only [gen_image]
      split_ifs <;> simp [is_outbound_log, List.cons_append]
    · rcases decoded with _ | img <;>
      · simp only [resize_cmd]
        split_ifs <;> try rfl
        all_goals
          rcases hpw : parse_hw (pyLowerStr (upd.args.headD "")) with _ | ⟨hh, ww⟩ <;>
            simp only [hpw] <;> try rfl
        all_goals split_ifs <;> try rfl
        all_goals try simp [user_replies_log_cons, List.cons_append]
        all_goals
          rcases hs : save_jpeg (pil_resize (convert_rgb img) ww.toNat hh.toNat)
            with _ | sv <;> simp [hs, user_replies_log_cons, List.cons_append]
    · rcases decoded with _ | img <;>
      · simp only [resize_cmd]
        split_ifs <;> try rfl
        all_goals
          rcases hpw : parse_hw (pyLowerStr (upd.args.headD "")) with _ | ⟨hh, ww⟩ <;>
            simp only [hpw] <;> try rfl
        all_goals split_ifs <;> try rfl
        all_goals try simp [is_outbound_log, List.cons_append]
        all_goals
          rcases hs : save_jpeg (pil_resize (convert_rgb img) ww.toNat hh.toNat)
            with _ | sv <;> simp [hs, is_outbound_log, List.cons_append]
    · simp only [roast_auto]
      split_ifs <;> simp [user_replies_log_cons, List.cons_append]
    · simp only [roast_auto]
      split_ifs <;> simp [is_outbound_log, List.cons_append]

/-- Claim C9: in every gated command (ai, image generation, resize) whose
authorization and argument checks pass, the usage record is written before
any outbound work (generation request or image download), the outbound work
does happen, and the audit row exists in the database regardless of how the
subsequent request or transform turns out. -/
theorem c9_usage_logged_before_outbound (upd : Upd) (db : DB) (now : Nat)
    (http : HttpOutcome) (decoded : Option Img) (style style_name : String)
    (s : String) (h w : Int) :
    (check_group_permission upd.chat_type upd.chat_id db = true →
      upd.args.isEmpty = false →
      ¬ (pyJoin " " upd.args).length < 2 →
      log_before_outbound (ai_cmd upd db now false http).2 = true ∧
        (ai_cmd upd db now false http).2.any is_outbound = true ∧
        (ai_cmd upd db now false http).1.user_stats.length =
          db.user_stats.length + 1) ∧
    (check_group_permission upd.chat_type upd.chat_id db = true →
      upd.args.isEmpty = false →
      ¬ (pyJoin " " upd.args).length < 3 →
      log_before_outbound (gen_image upd db now false style style_name http).2 =
          true ∧
        (gen_image upd db now false style style_name http).2.any is_outbound =
          true ∧
        (gen_image upd db now false style style_name http).1.user_stats.length =
          db.user_stats.length + 1) ∧
    (check_group_permission upd.chat_type upd.chat_id db = true →
      upd.has_reply_to = true →
      upd.reply_has_photo = true →
      upd.args = [s] →
      (pyLowerStr s).data.contains 'x' = true →
      parse_hw (pyLowerStr s) = some (h, w) →
      ¬ (h > MAX_SIZE ∨ w > MAX_SIZE ∨ h ≤ 0 ∨ w ≤ 0) →
      log_before_outbound (resize_cmd upd db now false decoded).2 = true ∧
        (resize_cmd upd db now false decoded).2.any is_outbound = true ∧
        (resize_cmd upd db now false decoded).1.user_stats.length =
          db.user_stats.length + 1) := by
  refine ⟨?_, ?_, ?_⟩
  · intro hp ha hl
    simp [ai_cmd, hp, ha, hl, log_before_outbound, is_outbound, is_db_log,
      log_user_action, log_user_action_attempt, List.cons_append]
  · intro hp ha hl
    simp [gen_image, hp, ha, hl, log_before_outbound, is_outbound, is_db_log,
      log_user_action, log_user_action_attempt, List.cons_append]
  · intro hp hr hph ha hx hhw hgood
    have hx2 : 'x' ∈ (pyLowerStr s).data := by simpa using hx
    rcases decoded with _ | img
    · simp [resize_cmd, hp, hr, hph, ha, hx2, hhw, hgood, log_before_outbound,
        is_outbound, is_db_log, log_user_action, log_user_action_attempt,
        List.cons_append]
    · obtain ⟨iw, ih, im⟩ := img
      cases im <;>
        simp [resize_cmd, hp, hr, hph, ha, hx2, hhw, hgood, log_before_outbound,
          is_outbound, is_db_log, log_user_action, log_user_action_attempt,
          List.cons_append, convert_rgb, save_jpeg, pil_resize, PMode.hasAlpha]

/-- Witness for C9 using /ai, /img and /resize invocations whose checks all
pass and whose HTTP request then times out. -/
theorem c9_usage_logged_before_outbound_witness :
    (log_before_outbound (ai_cmd updResize dbG5 0 false HttpOutcome.timeout).2 =
        true ∧
      (ai_cmd updResize dbG5 0 false HttpOutcome.timeout).2.any is_outbound =
        true ∧
      (ai_cmd updResize dbG5 0 false HttpOutcome.timeout).1.user_stats.length =
        dbG5.user_stats.length + 1) ∧
    (log_before_outbound (gen_image updResize dbG5 0 false "anime style art"
          "Anime Art" HttpOutcome.timeout).2 = true ∧
      (gen_image updResize dbG5 0 false "anime style art" "Anime Art"
          HttpOutcome.timeout).2.any is_outbound = true ∧
      (gen_image updResize dbG5 0 false "anime style art" "Anime Art"
          HttpOutcome.timeout).1.user_stats.length =
        dbG5.user_stats.length + 1) ∧
    (log_before_outbound (resize_cmd updResize dbG5 0 false
          (some ⟨100, 100, PMode.RGB⟩)).2 = true ∧
      (resize_cmd updResize dbG5 0 false
          (some ⟨100, 100, PMode.RGB⟩)).2.any is_outbound = true ∧
      (resize_cmd updResize dbG5 0 false
          (some ⟨100, 100, PMode.RGB⟩)).1.user_stats.length =
        dbG5.user_stats.length + 1) :=
  ⟨(c9_usage_logged_before_outbound updResize dbG5 0 HttpOutcome.timeout
      (some ⟨100, 100, PMode.RGB⟩) "anime style art" "Anime Art" "200x50"
      200 50).1 (by decide) (by decide) (by decide),
    (c9_usage_logged_before_outbound updResize dbG5 0 HttpOutcome.timeout
      (some ⟨100, 100, PMode.RGB⟩) "anime style art" "Anime Art" "200x50"
      200 50).2.1 (by decide) (by decide) (by decide),
    (c9_usage_logged_before_outbound updResize dbG5 0 HttpOutcome.timeout
      (some ⟨100, 100, PMode.RGB⟩) "anime style art" "Anime Art" "200x50"
      200 50).2.2 (by decide) (by decide) (by decide) (by decide) (by decide)
      (by decide) (by decide)⟩

/-- Claim C10: a plain text message whose text contains the substring bot
in any letter case, anywhere, makes the passive responder return silently:
no reply, no outbound call, no state change, whatever the chat, store or
network oracle. -/
theorem c10_bot_text_suppresses_roast (upd : Upd) (db : DB) (now : Nat)
    (fault : Bool) (http : HttpOutcome)
    (h : ContainsSeq bot_chars (upd.text.data.map pyLower)) :
    roast_auto upd db now fault http = (db, []) := by
  have hg := bot_guard_of_text upd.text.data h
  simp only [roast_auto]
  split_ifs with h1 h2 h3 h4 <;> try rfl
  exact absurd (by simp [hg]) h4

/-- Witness for C10: the message I bought a robot in authorized group 5 is
left alone. -/
theorem c10_bot_text_suppresses_roast_witness :
    ContainsSeq bot_chars (updRobot.text.data.map pyLower) ∧
    roast_auto updRobot dbG5 0 false
      (HttpOutcome.ok 200 "a sufficiently long roast text") = (dbG5, []) :=
  ⟨⟨"i bought a ro".data, [], by decide⟩,
    c10_bot_text_suppresses_roast updRobot dbG5 0 false
      (HttpOutcome.ok 200 "a sufficiently long roast text")
      ⟨"i bought a ro".data, [], by decide⟩⟩
